import Mathlib

/-!
Verification of the Adaptive Process Booster core
(`adaptive_process_booster.py`): shallow embedding of the scoring
function, the monitoring pass, automatic boosting, the bounded action
log, process termination, user-initiated boosting and the scheduler
loop, followed by theorems settling the specification's claims.

Conventions of the embedding:
* Python floats are modelled as rationals (`ℚ`), so arithmetic is exact.
* OS effects (psutil calls) are modelled by oracles passed as function
  arguments: `niceOk pid v` is whether `process.nice(v)` succeeds
  (an exception from `psutil.Process(pid)` or `nice` is a `false`).
* A per-process read of `proc.info` either yields a `RawInfo` record or
  one of the exceptions the source catches (`Except PsError RawInfo`).
-/

namespace APB

/-- The Linux table of `PRIORITY_LEVELS` (level name to nice value). -/
def LINUX_PRIORITY_LEVELS : List (String × Int) :=
  [("Very High", -10), ("High", -5), ("Above Normal", -2), ("Normal", 0),
   ("Below Normal", 5), ("Low", 10)]

/-- Dictionary lookup `PRIORITY_LEVELS[Linux][level]`. -/
def lookupPriority (level : String) : Option Int :=
  (LINUX_PRIORITY_LEVELS.find? (fun e => e.1 == level)).map (fun e => e.2)

/-- Embedding of `boost_process_priority(pid, priority_level)`, Linux branch:
looks the level up in the priority table and falls back to nice `-5`
when the level is not in the table; the call `process.nice(v)` is the
oracle `niceOk pid v`, which is `false` when psutil raised (the source
catches every exception and returns `False`), `true` on success. -/
def boost_process_priority (niceOk : Nat → Int → Bool)
    (pid : Nat) (priority_level : String) : Bool :=
  match lookupPriority priority_level with
  | some v => niceOk pid v
  | none => niceOk pid (-5)

/-- The scoring function `calculate_score(cpu_percent, ram_percent)`. -/
def calculate_score (cpu_percent ram_percent : ℚ) : ℚ :=
  0.6 * cpu_percent + 0.4 * ram_percent

/-- One entry of `proc.info` as read in the monitoring loop: the fields
requested from `psutil.process_iter`, each possibly `None`. -/
structure RawInfo where
  pid : Nat
  name : Option String
  cpu_percent : Option ℚ
  memory_percent : Option ℚ
  status : Option String
deriving DecidableEq, Repr

/-- The per-process exceptions the monitoring loop catches and skips. -/
inductive PsError
  | noSuchProcess
  | accessDenied
  | zombieProcess
  | otherException
deriving DecidableEq, Repr

/-- One dict appended to `processes_data` in the monitoring loop. -/
structure ProcessData where
  pid : Nat
  name : String
  cpu : ℚ
  ram : ℚ
  score : ℚ
  status : String
deriving DecidableEq, Repr

/-- The three auto-boost settings of the GUI application object
(`auto_boost_enabled`, `auto_boost_threshold`, `auto_boost_level`). -/
structure Config where
  auto_boost_enabled : Bool
  auto_boost_threshold : ℚ
  auto_boost_level : String
deriving DecidableEq, Repr

/-- Python `x or d` for a possibly-`None` string (`None` and the empty
string are falsy and replaced by the default). -/
def pyOrStr (x : Option String) (d : String) : String :=
  match x with
  | none => d
  | some s => if s = "" then d else s

/-- Python `x or d` for a possibly-`None` float (`None` and `0.0` are
falsy and replaced by the default). -/
def pyOrQ (x : Option ℚ) (d : ℚ) : ℚ :=
  match x with
  | none => d
  | some v => if v = 0 then d else v

/-- The per-process sampling step of the monitoring loop: a raised
exception skips the process (`continue`); otherwise name, cpu and ram
are defaulted with `or`, status with `.get(-, "unknown")`, and the score
is computed by `calculate_score` from this sample's cpu and ram. -/
def sampleOf : Except PsError RawInfo → Option ProcessData
  | .error _ => none
  | .ok info =>
    let cpu := pyOrQ info.cpu_percent 0
    let ram := pyOrQ info.memory_percent 0
    some {
      pid := info.pid
      name := pyOrStr info.name "N/A"
      cpu := cpu
      ram := ram
      score := calculate_score cpu ram
      status := info.status.getD "unknown" }

/-- Fixed two-decimal rendering of a rational, modelling Python's
format `.2f` applied to the score (half-up rounding). -/
def formatFixed2 (q : ℚ) : String :=
  let neg := q < 0
  let cents : Nat := (Int.floor (|q| * 100 + 1 / 2)).toNat
  let whole := cents / 100
  let frac := cents % 100
  let fracStr := if frac < 10 then "0" ++ toString frac else toString frac
  (if neg then "-" else "") ++ toString whole ++ "." ++ fracStr

/-- The auto-boost log message built in the monitoring loop. -/
def autoBoostMsg (pid : Nat) (name : String) (score : ℚ) : String :=
  "Auto-boosted PID " ++ toString pid ++ " (" ++ name ++ ") - Score: "
    ++ formatFixed2 score

/-- One `boost_process_priority` call issued by the monitoring loop,
with the level passed and the boolean the call returned (which the
loop discards). -/
structure BoostCall where
  pid : Nat
  level : String
  ok : Bool
deriving DecidableEq, Repr

/-- The observable output of one monitoring pass: the priority-change
calls issued, the `log_action` messages, and `processes_data`. -/
structure PassOutput where
  boosts : List BoostCall
  logs : List String
  processes_data : List ProcessData
deriving DecidableEq, Repr

/-- What one loop iteration over a single enumerated process
contributes to the pass output. -/
structure ItemEffects where
  boosts : List BoostCall
  logs : List String
  sample : Option ProcessData
deriving DecidableEq, Repr

/-- The body of the per-process loop in `monitor_processes`, for the
configuration values read during this iteration: skip on exception;
otherwise, when auto-boost is enabled and the score strictly exceeds
the threshold, call `boost_process_priority` (discarding its result)
and log the auto-boost message; always append the sample. -/
def processOne (cfg : Config) (niceOk : Nat → Int → Bool)
    (item : Except PsError RawInfo) : ItemEffects :=
  match sampleOf item with
  | none => ⟨[], [], none⟩
  | some p =>
    if cfg.auto_boost_enabled && decide (cfg.auto_boost_threshold < p.score) then
      let ok := boost_process_priority niceOk p.pid cfg.auto_boost_level
      ⟨[⟨p.pid, cfg.auto_boost_level, ok⟩], [autoBoostMsg p.pid p.name p.score],
       some p⟩
    else ⟨[], [], some p⟩

/-- Prepend one iteration's contributions to a pass output. -/
def consEffects (e : ItemEffects) (o : PassOutput) : PassOutput :=
  ⟨e.boosts ++ o.boosts, e.logs ++ o.logs, e.sample.toList ++ o.processes_data⟩

/-- The empty pass output. -/
def emptyOutput : PassOutput := ⟨[], [], []⟩

/-- The per-process loop of `monitor_processes` as the source runs it:
the three `gui_app.auto_boost_*` attributes are shared mutable state
re-read from the application object at every iteration, so the
configuration seen by the i-th enumerated process is `env i`. -/
def monitorPassFrom (env : Nat → Config) (niceOk : Nat → Int → Bool)
    (i : Nat) : List (Except PsError RawInfo) → PassOutput
  | [] => emptyOutput
  | item :: rest =>
    consEffects (processOne (env i) niceOk item)
      (monitorPassFrom env niceOk (i + 1) rest)

/-- One monitoring pass under a history `env` of configuration values:
`env i` is the configuration in effect when the i-th process is
handled (constant `env` means no concurrent settings update). -/
def monitorPassEnv (env : Nat → Config) (niceOk : Nat → Int → Bool)
    (items : List (Except PsError RawInfo)) : PassOutput :=
  monitorPassFrom env niceOk 0 items

/-- Modelled from the spec: the pass as the specification words it,
with the policy configuration read once as a single consistent
snapshot at the start of the pass and that same value applied to every
process of the pass. -/
def monitorPassSnapshot (cfg : Config) (niceOk : Nat → Int → Bool) :
    List (Except PsError RawInfo) → PassOutput
  | [] => emptyOutput
  | item :: rest =>
    consEffects (processOne cfg niceOk item) (monitorPassSnapshot cfg niceOk rest)

/-- Bound (`maxlen`) of the `action_history` deque created in `__init__`. -/
def ACTION_HISTORY_MAXLEN : Nat := 100

/-- Append to a `maxlen`-bounded deque: append on the right and drop
from the left whatever exceeds the bound. -/
def dequeAppend (maxlen : Nat) (l : List String) (x : String) : List String :=
  let l2 := l ++ [x]
  l2.drop (l2.length - maxlen)

/-- The entry string `log_action` builds from a timestamp and message. -/
def log_entry_format (timestamp message : String) : String :=
  "[" ++ timestamp ++ "] " ++ message ++ "\n"

/-- Embedding of `log_action(message)`: format the entry and append it
to the bounded `action_history` deque. -/
def log_action (history : List String) (timestamp message : String) :
    List String :=
  dequeAppend ACTION_HISTORY_MAXLEN history (log_entry_format timestamp message)

/-- A sequence of `log_action` calls starting from a given history. -/
def logAll (history : List String) (entries : List (String × String)) :
    List String :=
  entries.foldl (fun h e => log_action h e.1 e.2) history

/-- Behaviour of the process targeted by `kill_process`: whether
`psutil.Process(pid)` finds it, whether `terminate()` raises, whether
it is no longer running after the 0.5 s grace sleep, and whether
`kill()` raises. -/
structure TargetProc where
  found : Bool
  termOk : Bool
  deadAfterGrace : Bool
  killOk : Bool
deriving DecidableEq, Repr

/-- The observable events of one `kill_process` call. -/
inductive KillEvent
  | terminateReq
  | sleptMs (ms : Nat)
  | forceKill
deriving DecidableEq, Repr

/-- Embedding of `kill_process(pid)`: request graceful termination, sleep 0.5 s,
forcefully kill if the process is still running, return `True`; any
`NoSuchProcess`/`AccessDenied` (or other) exception yields `False`.
Returns the trace of events together with the boolean result. -/
def kill_process (p : TargetProc) : List KillEvent × Bool :=
  if !p.found then ([], false)
  else if !p.termOk then ([.terminateReq], false)
  else if p.deadAfterGrace then ([.terminateReq, .sleptMs 500], true)
  else if !p.killOk then ([.terminateReq, .sleptMs 500, .forceKill], false)
  else ([.terminateReq, .sleptMs 500, .forceKill], true)

/-- Outcome of `boost_selected_process` as reported to the user via
the message boxes of the source. -/
inductive UserBoostOutcome
  | noSelection
  | cancelled
  | success (pid : Nat) (level : String)
  | failure (pid : Nat)
deriving DecidableEq, Repr

/-- Embedding of `boost_selected_process`: dialog input `None` cancels; an input
that is not a key of the priority table is replaced by `"High"`
before the call; then `boost_process_priority` decides between the
success and the failure message box. -/
def boost_selected_process (niceOk : Nat → Int → Bool)
    (selected_pid : Option Nat) (dialogInput : Option String) :
    UserBoostOutcome :=
  match selected_pid with
  | none => .noSelection
  | some pid =>
    match dialogInput with
    | none => .cancelled
    | some raw =>
      let priority := if (lookupPriority raw).isSome then raw else "High"
      if boost_process_priority niceOk pid priority then .success pid priority
      else .failure pid

/-- Environment of the monitoring loop: the value of the shared
`monitoring_active` flag as read at the top of iteration k, and
whether the body of iteration k raises an exception. -/
structure LoopEnv where
  monitoring_active : Nat → Bool
  passRaises : Nat → Bool

/-- Observable events of the monitoring loop. -/
inductive LoopEvent
  | passCompleted (k : Nat)
  | passAborted (k : Nat)
  | sleptSeconds (s : Nat)
deriving DecidableEq, Repr

/-- One iteration of the `while` body of `monitor_processes`: the pass
runs (completing, or aborted by an exception that the bare
`except Exception` absorbs) and in either case `time.sleep(1)` runs
before the loop continues. -/
def loopIter (env : LoopEnv) (k : Nat) : List LoopEvent :=
  if env.passRaises k then [.passAborted k, .sleptSeconds 1]
  else [.passCompleted k, .sleptSeconds 1]

/-- The `while gui_app.monitoring_active` loop of `monitor_processes`,
unrolled for `fuel` iterations starting at iteration index k: the flag
is re-read before each iteration and the loop exits exactly when it is
false. -/
def monitorLoop (env : LoopEnv) : Nat → Nat → List LoopEvent
  | 0, _ => []
  | fuel + 1, k =>
    if env.monitoring_active k then
      loopIter env k ++ monitorLoop env fuel (k + 1)
    else []

/-! ### Helper lemmas -/

theorem processOne_sample (cfg : Config) (niceOk : Nat → Int → Bool)
    (item : Except PsError RawInfo) :
    (processOne cfg niceOk item).sample = sampleOf item := by
  unfold processOne
  cases h : sampleOf item with
  | none => rfl
  | some p => dsimp only; split <;> rfl

theorem monitorPassFrom_processes_data (env : Nat → Config)
    (niceOk : Nat → Int → Bool) :
    ∀ (items : List (Except PsError RawInfo)) (i : Nat),
      (monitorPassFrom env niceOk i items).processes_data
        = items.filterMap sampleOf := by
  intro items
  induction items with
  | nil => intro i; rfl
  | cons item rest ih =>
    intro i
    show (consEffects (processOne (env i) niceOk item)
        (monitorPassFrom env niceOk (i + 1) rest)).processes_data = _
    rw [List.filterMap_cons]
    cases h : sampleOf item with
    | none =>
      simp [consEffects, processOne_sample, h, ih (i + 1)]
    | some p =>
      simp [consEffects, processOne_sample, h, ih (i + 1)]

theorem monitorPassFrom_const (cfg : Config) (niceOk : Nat → Int → Bool) :
    ∀ (items : List (Except PsError RawInfo)) (i : Nat),
      monitorPassFrom (fun _ => cfg) niceOk i items
        = monitorPassSnapshot cfg niceOk items := by
  intro items
  induction items with
  | nil => intro i; rfl
  | cons item rest ih =>
    intro i
    show consEffects _ (monitorPassFrom (fun _ => cfg) niceOk (i + 1) rest) = _
    rw [ih (i + 1)]
    rfl

theorem sampleOf_score (item : Except PsError RawInfo) (p : ProcessData)
    (h : sampleOf item = some p) : p.score = calculate_score p.cpu p.ram := by
  cases item with
  | error e => simp [sampleOf] at h
  | ok info =>
    simp only [sampleOf, Option.some.injEq] at h
    subst h
    rfl

theorem monitorPassSnapshot_boosts (cfg : Config) (niceOk : Nat → Int → Bool)
    (hen : cfg.auto_boost_enabled = true) :
    ∀ items : List (Except PsError RawInfo),
      (monitorPassSnapshot cfg niceOk items).boosts
        = ((items.filterMap sampleOf).filter
            (fun p => decide (cfg.auto_boost_threshold < p.score))).map
          (fun p => ⟨p.pid, cfg.auto_boost_level,
            boost_process_priority niceOk p.pid cfg.auto_boost_level⟩) := by
  intro items
  induction items with
  | nil => rfl
  | cons item rest ih =>
    show (consEffects (processOne cfg niceOk item) _).boosts = _
    rw [List.filterMap_cons]
    cases h : sampleOf item with
    | none =>
      simp [consEffects, processOne, h, ih]
    | some p =>
      by_cases hp : cfg.auto_boost_threshold < p.score
      · simp [consEffects, processOne, h, hen, hp, ih]
      · simp [consEffects, processOne, h, hen, hp, ih]

theorem monitorPassSnapshot_logs (cfg : Config) (niceOk : Nat → Int → Bool)
    (hen : cfg.auto_boost_enabled = true) :
    ∀ items : List (Except PsError RawInfo),
      (monitorPassSnapshot cfg niceOk items).logs
        = ((items.filterMap sampleOf).filter
            (fun p => decide (cfg.auto_boost_threshold < p.score))).map
          (fun p => autoBoostMsg p.pid p.name p.score) := by
  intro items
  induction items with
  | nil => rfl
  | cons item rest ih =>
    show (consEffects (processOne cfg niceOk item) _).logs = _
    rw [List.filterMap_cons]
    cases h : sampleOf item with
    | none =>
      simp [consEffects, processOne, h, ih]
    | some p =>
      by_cases hp : cfg.auto_boost_threshold < p.score
      · simp [consEffects, processOne, h, hen, hp, ih]
      · simp [consEffects, processOne, h, hen, hp, ih]

theorem monitorPassSnapshot_boosts_disabled (cfg : Config)
    (niceOk : Nat → Int → Bool) (hen : cfg.auto_boost_enabled = false) :
    ∀ items : List (Except PsError RawInfo),
      (monitorPassSnapshot cfg niceOk items).boosts = [] := by
  intro items
  induction items with
  | nil => rfl
  | cons item rest ih =>
    show (consEffects (processOne cfg niceOk item) _).boosts = _
    cases h : sampleOf item with
    | none => simp [consEffects, processOne, h, ih]
    | some p => simp [consEffects, processOne, h, hen, ih]

theorem length_filterMap_sampleOf :
    ∀ items : List (Except PsError RawInfo),
      (items.filterMap sampleOf).length
        = (items.filter (fun it => it.isOk)).length := by
  intro items
  induction items with
  | nil => rfl
  | cons item rest ih =>
    rw [List.filterMap_cons, List.filter_cons]
    cases item with
    | error e => simpa [sampleOf, Except.isOk, Except.toBool] using ih
    | ok info => simpa [sampleOf, Except.isOk, Except.toBool] using ih

theorem foldl_dequeAppend (N : Nat) :
    ∀ (msgs acc : List String), acc.length ≤ N →
      msgs.foldl (dequeAppend N) acc
        = (acc ++ msgs).drop (acc.length + msgs.length - N) := by
  intro msgs
  induction msgs with
  | nil =>
    intro acc hacc
    simp [Nat.sub_eq_zero_of_le hacc]
  | cons m rest ih =>
    intro acc hacc
    rw [List.foldl_cons]
    have hkey : dequeAppend N acc m
        = (acc ++ [m]).drop (acc.length + 1 - N) := by
      simp [dequeAppend]
    have hlen : (dequeAppend N acc m).length ≤ N := by
      rw [hkey, List.length_drop]
      simp only [List.length_append, List.length_cons, List.length_nil]
      omega
    rw [ih _ hlen, hkey, List.length_drop,
      ← List.drop_append_of_le_length (by simp), List.drop_drop]
    have harr : (acc ++ [m]) ++ rest = acc ++ m :: rest := by
      simp
    rw [harr]
    congr 1
    simp only [List.length_append, List.length_cons, List.length_nil]
    omega

theorem monitorLoop_takeWhile (env : LoopEnv) :
    ∀ (fuel k : Nat),
      monitorLoop env fuel k
        = (((List.range fuel).takeWhile
              (fun i => env.monitoring_active (k + i))).map
            (fun i => loopIter env (k + i))).flatten := by
  intro fuel
  induction fuel with
  | zero => intro k; rfl
  | succ n ih =>
    intro k
    rw [List.range_succ_eq_map]
    show (if env.monitoring_active k then
        loopIter env k ++ monitorLoop env n (k + 1) else []) = _
    by_cases hk : env.monitoring_active k
    · rw [if_pos hk]
      rw [List.takeWhile_cons_of_pos (by simpa using hk)]
      rw [List.map_cons, List.flatten_cons]
      congr 1
      rw [ih (k + 1), List.takeWhile_map, List.map_map]
      have hpred : ((fun i => env.monitoring_active (k + i)) ∘ Nat.succ)
          = (fun i => env.monitoring_active (k + 1 + i)) := by
        funext i
        show env.monitoring_active (k + (i + 1))
          = env.monitoring_active (k + 1 + i)
        congr 1
        omega
      have hfun : ((fun i => loopIter env (k + i)) ∘ Nat.succ)
          = (fun i => loopIter env (k + 1 + i)) := by
        funext i
        show loopIter env (k + (i + 1)) = loopIter env (k + 1 + i)
        congr 1
        omega
      rw [hpred, hfun]
    · rw [if_neg hk]
      rw [List.takeWhile_cons_of_neg (by simpa using hk)]
      rfl

/-! ### Concrete fixtures used by the claim theorems -/

/-- A sampled process with score 10 (cpu 10, ram 10). -/
def infoScore10 : RawInfo := ⟨1, some "alpha", some 10, some 10, some "running"⟩

/-- A sampled process with score 51 (cpu 85, ram 0). -/
def infoScore51 : RawInfo := ⟨2, some "beta", some 85, some 0, some "running"⟩

/-- A sampled process with score 80 (cpu 100, ram 50). -/
def infoScore80 : RawInfo := ⟨3, some "gamma", some 100, some 50, some "running"⟩

/-- A sampled process with score exactly 50 (cpu 50, ram 50). -/
def infoScore50 : RawInfo := ⟨4, some "delta", some 50, some 50, some "running"⟩

/-- A sampled process all of whose optional metrics are missing. -/
def infoMissing : RawInfo := ⟨11, none, none, none, some "running"⟩

/-- Auto-boost enabled with threshold 50 and level High. -/
def cfg50 : Config := ⟨true, 50, "High"⟩

/-- Auto-boost enabled with threshold 1000 and level High. -/
def cfg1000 : Config := ⟨true, 1000, "High"⟩

/-- A configuration history in which the settings change after the
first process of the pass (an update concurrent with the pass). -/
def mixedEnv : Nat → Config := fun i => if i = 0 then cfg50 else cfg1000

/-- Two enumerated processes that both score 80. -/
def twoHot : List (Except PsError RawInfo) :=
  [.ok infoScore80, .ok ⟨9, some "theta", some 100, some 50, some "running"⟩]

/-- Ten enumerated pids of which three fail to sample. -/
def tenWithThreeFailing : List (Except PsError RawInfo) :=
  [.ok infoScore10, .error .noSuchProcess, .ok infoScore51,
   .error .accessDenied, .ok infoScore80, .ok infoScore50,
   .error .noSuchProcess, .ok ⟨5, some "eps", some 1, some 1, some "sleeping"⟩,
   .ok ⟨6, some "zeta", some 2, some 2, some "sleeping"⟩,
   .ok ⟨7, some "eta", some 3, some 3, some "sleeping"⟩]

/-- One hundred and three timestamped log messages. -/
def entries103 : List (String × String) :=
  (List.range 103).map (fun n => ("t", toString n))

/-! ### Claim theorems -/

/-- C1: for all inputs (including values greater than 100) the scoring
function returns exactly 0.6*cpu + 0.4*ram, and every sample appended
to `processes_data` by a monitoring pass carries a score recomputed by
that formula from that same sample's cpu and ram values. -/
theorem C1_score_formula :
    (∀ cpu ram : ℚ, calculate_score cpu ram = 0.6 * cpu + 0.4 * ram) ∧
    (∀ (env : Nat → Config) (niceOk : Nat → Int → Bool)
        (items : List (Except PsError RawInfo)) (p : ProcessData),
      p ∈ (monitorPassEnv env niceOk items).processes_data →
        p.score = calculate_score p.cpu p.ram ∧
        p.score = 0.6 * p.cpu + 0.4 * p.ram) := by
  refine ⟨fun cpu ram => rfl, ?_⟩
  intro env niceOk items p hp
  rw [monitorPassEnv, monitorPassFrom_processes_data] at hp
  obtain ⟨it, hit, hsome⟩ := List.mem_filterMap.mp hp
  have hs := sampleOf_score it p hsome
  exact ⟨hs, hs⟩

/-- Closed instance of C1: the 80-scorer of the fixtures has its score
field equal to the scoring function applied to its own cpu and ram. -/
theorem C1_score_formula_witness :
    (⟨3, "gamma", 100, 50, 80, "running"⟩ : ProcessData).score
      = calculate_score (100 : ℚ) 50 :=
  ((C1_score_formula.2 (fun _ => cfg50) (fun _ _ => true)
    [Except.ok infoScore80] ⟨3, "gamma", 100, 50, 80, "running"⟩
    (by with_unfolding_all decide)).1)

/-- C2: with auto-boost enabled, a pass issues exactly one setPriority
call per sampled process whose score strictly exceeds the threshold
(in enumeration order, so each process is evaluated at most once);
with auto-boost disabled, no call is issued; with threshold 50 the
processes scoring 51 and 80 are boosted and those scoring 10 and
exactly 50 are not. -/
theorem C2_auto_boost_threshold (cfg : Config) (niceOk : Nat → Int → Bool)
    (items : List (Except PsError RawInfo))
    (hen : cfg.auto_boost_enabled = true) :
    (monitorPassEnv (fun _ => cfg) niceOk items).boosts
      = ((items.filterMap sampleOf).filter
          (fun p => decide (cfg.auto_boost_threshold < p.score))).map
        (fun p => ⟨p.pid, cfg.auto_boost_level,
          boost_process_priority niceOk p.pid cfg.auto_boost_level⟩) ∧
    (∀ (cfg2 : Config) (niceOk2 : Nat → Int → Bool)
        (items2 : List (Except PsError RawInfo)),
      cfg2.auto_boost_enabled = false →
        (monitorPassEnv (fun _ => cfg2) niceOk2 items2).boosts = []) ∧
    (monitorPassEnv (fun _ => cfg50) (fun _ _ => true)
        [.ok infoScore10, .ok infoScore51, .ok infoScore80,
         .ok infoScore50]).boosts.map (fun b => b.pid) = [2, 3] := by
  refine ⟨?_, ?_, by with_unfolding_all decide⟩
  · rw [monitorPassEnv, monitorPassFrom_const]
    exact monitorPassSnapshot_boosts cfg niceOk hen items
  · intro cfg2 niceOk2 items2 hdis
    rw [monitorPassEnv, monitorPassFrom_const]
    exact monitorPassSnapshot_boosts_disabled cfg2 niceOk2 hdis items2

/-- Closed instance of C2 at threshold 50 over processes scoring
10, 51, 80 and 50: exactly pids 2 and 3 receive a setPriority call. -/
theorem C2_auto_boost_threshold_witness :
    (monitorPassEnv (fun _ => cfg50) (fun _ _ => true)
        [.ok infoScore10, .ok infoScore51, .ok infoScore80,
         .ok infoScore50]).boosts.map (fun b => b.pid) = [2, 3] :=
  (C2_auto_boost_threshold cfg50 (fun _ _ => true)
    [.ok infoScore10, .ok infoScore51, .ok infoScore80, .ok infoScore50]
    rfl).2.2

/-- C3 counterexample: a pass in which every setPriority call fails
(the nice oracle is constantly false) still produces the
"Auto-boosted ..." log entry for the failed attempt, because
`boost_process_priority` reports failure through its ignored return
value and never raises; the claim says a failed call produces no
log entry at all. -/
theorem C3_failed_boost_still_logged :
    (monitorPassEnv (fun _ => cfg50) (fun _ _ => false)
        [.ok infoScore80]).boosts = [⟨3, "High", false⟩] ∧
    (monitorPassEnv (fun _ => cfg50) (fun _ _ => false)
        [.ok infoScore80]).logs
      = ["Auto-boosted PID 3 (gamma) - Score: 80.00"] := by
  with_unfolding_all decide

/-- C3 amended: each automatic boost attempt produces exactly one
action-log entry of the form "Auto-boosted PID .. (..) - Score: ..",
whether the setPriority call succeeds or fails: the log list does not
depend on the nice oracle and has one entry per issued call. -/
theorem C3_log_entry_per_attempt (cfg : Config) (niceOk : Nat → Int → Bool)
    (items : List (Except PsError RawInfo))
    (hen : cfg.auto_boost_enabled = true) :
    (monitorPassEnv (fun _ => cfg) niceOk items).logs
      = ((items.filterMap sampleOf).filter
          (fun p => decide (cfg.auto_boost_threshold < p.score))).map
        (fun p => autoBoostMsg p.pid p.name p.score) ∧
    (monitorPassEnv (fun _ => cfg) niceOk items).logs.length
      = (monitorPassEnv (fun _ => cfg) niceOk items).boosts.length := by
  constructor
  · rw [monitorPassEnv, monitorPassFrom_const]
    exact monitorPassSnapshot_logs cfg niceOk hen items
  · rw [monitorPassEnv, monitorPassFrom_const,
      monitorPassSnapshot_logs cfg niceOk hen items,
      monitorPassSnapshot_boosts cfg niceOk hen items]
    simp

/-- Closed instance of amended C3: with a constantly failing nice
oracle, the number of log entries still equals the number of boost
attempts. -/
theorem C3_log_entry_per_attempt_witness :
    (monitorPassEnv (fun _ => cfg50) (fun _ _ => false)
        [.ok infoScore80]).logs.length
      = (monitorPassEnv (fun _ => cfg50) (fun _ _ => false)
        [.ok infoScore80]).boosts.length :=
  (C3_log_entry_per_attempt cfg50 (fun _ _ => false) [.ok infoScore80] rfl).2

/-- C4: after appending N+k entries to the empty bounded action log
(N = 100, the deque maxlen), exactly the last N appended entries
remain, in their original relative order, the k oldest dropped. -/
theorem C4_bounded_log (entries : List (String × String)) (k : Nat)
    (hlen : entries.length = ACTION_HISTORY_MAXLEN + k) :
    logAll [] entries
      = (entries.map (fun e => log_entry_format e.1 e.2)).drop k ∧
    (logAll [] entries).length = ACTION_HISTORY_MAXLEN := by
  have hfold : logAll [] entries
      = (entries.map (fun e => log_entry_format e.1 e.2)).foldl
          (dequeAppend ACTION_HISTORY_MAXLEN) [] := by
    rw [logAll, List.foldl_map]
    rfl
  have hml : (entries.map (fun e => log_entry_format e.1 e.2)).length
      = ACTION_HISTORY_MAXLEN + k := by
    simpa using hlen
  have hmain := foldl_dequeAppend ACTION_HISTORY_MAXLEN
    (entries.map (fun e => log_entry_format e.1 e.2)) [] (by simp)
  rw [hfold, hmain, List.nil_append, List.length_nil, hml]
  constructor
  · congr 1
    omega
  · rw [List.length_drop, hml]
    omega

/-- Closed instance of C4: appending 103 entries leaves a log of
exactly 100 entries. -/
theorem C4_bounded_log_witness :
    (logAll [] entries103).length = ACTION_HISTORY_MAXLEN :=
  (C4_bounded_log entries103 3
    (by simp [entries103, ACTION_HISTORY_MAXLEN])).2

/-- C5: a pass always completes with `processes_data` holding exactly
the fully-populated samples of the pids whose sampling succeeded, the
failed pids silently excluded; over ten enumerated pids of which three
fail, the published list has exactly seven samples. -/
theorem C5_graceful_degradation (env : Nat → Config)
    (niceOk : Nat → Int → Bool) (items : List (Except PsError RawInfo)) :
    (monitorPassEnv env niceOk items).processes_data
      = items.filterMap sampleOf ∧
    (monitorPassEnv env niceOk items).processes_data.length
      = (items.filter (fun it => it.isOk)).length ∧
    tenWithThreeFailing.length = 10 ∧
    (tenWithThreeFailing.filter (fun it => !it.isOk)).length = 3 ∧
    (monitorPassEnv env niceOk tenWithThreeFailing).processes_data.length
      = 7 := by
  refine ⟨monitorPassFrom_processes_data env niceOk items 0, ?_,
    by with_unfolding_all decide, by with_unfolding_all decide, ?_⟩
  · rw [monitorPassEnv, monitorPassFrom_processes_data]
    exact length_filterMap_sampleOf items
  · rw [monitorPassEnv, monitorPassFrom_processes_data]
    with_unfolding_all decide

/-- C6: on an existing, accessible process the kill path first requests
graceful termination, waits the 500 ms grace period, escalates to a
forceful kill when the process is still running, and the overall call
returns success rather than a timeout error; moreover every found
process is asked to terminate gracefully first. -/
theorem C6_kill_escalation (p : TargetProc) (hf : p.found = true)
    (ht : p.termOk = true) (hstill : p.deadAfterGrace = false)
    (hk : p.killOk = true) :
    kill_process p
      = ([.terminateReq, .sleptMs 500, .forceKill], true) ∧
    (∀ q : TargetProc, q.found = true →
      (kill_process q).1.head? = some .terminateReq) := by
  constructor
  · simp [kill_process, hf, ht, hstill, hk]
  · intro q hq
    rcases q with ⟨f, t, d, kk⟩
    cases f with
    | false => simp at hq
    | true => cases t <;> cases d <;> cases kk <;> simp [kill_process]

/-- Closed instance of C6: a found, accessible process that survives
the grace period is forcefully killed and the call returns true. -/
theorem C6_kill_escalation_witness :
    kill_process ⟨true, true, false, true⟩
      = ([.terminateReq, .sleptMs 500, .forceKill], true) :=
  (C6_kill_escalation ⟨true, true, false, true⟩ rfl rfl rfl rfl).1

/-- C7 counterexample: a user-initiated boost naming the unmappable
level "Turbo" silently falls back to the default level "High" and the
outcome reported is a plain success, so the claim that no silent
fallback occurs on the user-initiated path is false on the code. -/
theorem C7_user_fallback_counterexample :
    lookupPriority "Turbo" = none ∧
    boost_selected_process (fun _ _ => true) (some 1) (some "Turbo")
      = .success 1 "High" := by
  with_unfolding_all decide

/-- C7 amended: a user-initiated boost naming an unmappable priority
level silently substitutes the default level "High" (nice value -5 on
Linux) before issuing the call and reports plain success or failure of
that call; no Unsupported outcome exists on either path. -/
theorem C7_silent_fallback_to_default (niceOk : Nat → Int → Bool)
    (pid : Nat) (raw : String) (h : lookupPriority raw = none) :
    boost_selected_process niceOk (some pid) (some raw)
      = (if niceOk pid (-5) then UserBoostOutcome.success pid "High"
         else UserBoostOutcome.failure pid) := by
  have hHigh : lookupPriority "High" = some (-5) := by
    with_unfolding_all decide
  simp [boost_selected_process, h, boost_process_priority, hHigh]

/-- Closed instance of amended C7: with a failing nice oracle the
unmappable input "Turbo" yields the plain failure outcome. -/
theorem C7_silent_fallback_to_default_witness :
    boost_selected_process (fun _ _ => false) (some 7) (some "Turbo")
      = UserBoostOutcome.failure 7 := by
  simpa using C7_silent_fallback_to_default (fun _ _ => false) 7 "Turbo"
    (by with_unfolding_all decide)

/-- C8 counterexample: the loop re-reads the auto-boost settings from
the shared application object at every process, so a configuration
update after the first process of a pass yields a pass output that
matches neither the pass under the old configuration nor the pass
under the new one: the first 80-scorer is boosted under threshold 50
while the identical second one is not under threshold 1000. -/
theorem C8_mid_pass_update_mixes_configs :
    monitorPassEnv mixedEnv (fun _ _ => true) twoHot
      ≠ monitorPassSnapshot cfg50 (fun _ _ => true) twoHot ∧
    monitorPassEnv mixedEnv (fun _ _ => true) twoHot
      ≠ monitorPassSnapshot cfg1000 (fun _ _ => true) twoHot ∧
    (monitorPassEnv mixedEnv (fun _ _ => true) twoHot).boosts.map
      (fun b => b.pid) = [3] ∧
    (monitorPassSnapshot cfg50 (fun _ _ => true) twoHot).boosts.map
      (fun b => b.pid) = [3, 9] ∧
    (monitorPassSnapshot cfg1000 (fun _ _ => true) twoHot).boosts.map
      (fun b => b.pid) = [] := by
  with_unfolding_all decide

/-- C8 amended: the configuration fields are read per process during
the pass, not once at pass start; only when no concurrent update
changes them during the pass does the pass coincide with the
single-snapshot pass the specification describes. -/
theorem C8_constant_config_no_tearing (cfg : Config)
    (niceOk : Nat → Int → Bool) (items : List (Except PsError RawInfo)) :
    monitorPassEnv (fun _ => cfg) niceOk items
      = monitorPassSnapshot cfg niceOk items :=
  monitorPassFrom_const cfg niceOk items 0

/-- C9: the monitoring loop performs iterations exactly while the
shared stop flag read at the top of each iteration is true — it never
exits for any other reason — and every iteration, whether its pass
completed or was aborted by an absorbed exception, ends with a sleep
of exactly the fixed one-second period before the next iteration. -/
theorem C9_loop_runs_until_stop (env : LoopEnv) (fuel k : Nat) :
    monitorLoop env fuel k
      = (((List.range fuel).takeWhile
            (fun i => env.monitoring_active (k + i))).map
          (fun i => loopIter env (k + i))).flatten ∧
    (∀ j, loopIter env j
      = [(if env.passRaises j then LoopEvent.passAborted j
          else LoopEvent.passCompleted j), LoopEvent.sleptSeconds 1]) ∧
    (∀ j, env.monitoring_active j = false → monitorLoop env fuel j = []) := by
  refine ⟨monitorLoop_takeWhile env fuel k, ?_, ?_⟩
  · intro j
    by_cases hr : env.passRaises j <;> simp [loopIter, hr]
  · intro j hj
    cases fuel with
    | zero => rfl
    | succ n =>
      show (if env.monitoring_active j then _ else _) = _
      rw [hj]
      simp

/-- C10: an enumerated process whose name, cpu or memory metric is
missing still appears in the pass output, with the name defaulted to
"N/A", the missing percentages defaulted to 0.0, and its score
computed by the scoring formula from the substituted values. -/
theorem C10_missing_metrics_defaulted (info : RawInfo) (env : Nat → Config)
    (niceOk : Nat → Int → Bool) (items : List (Except PsError RawInfo))
    (hmem : Except.ok info ∈ items) :
    ∃ p ∈ (monitorPassEnv env niceOk items).processes_data,
      sampleOf (Except.ok info) = some p ∧
      p.pid = info.pid ∧
      (info.name = none → p.name = "N/A") ∧
      (info.cpu_percent = none → p.cpu = 0) ∧
      (info.memory_percent = none → p.ram = 0) ∧
      p.score = calculate_score p.cpu p.ram := by
  refine ⟨⟨info.pid, pyOrStr info.name "N/A", pyOrQ info.cpu_percent 0,
    pyOrQ info.memory_percent 0,
    calculate_score (pyOrQ info.cpu_percent 0) (pyOrQ info.memory_percent 0),
    info.status.getD "unknown"⟩, ?_, rfl, rfl, ?_, ?_, ?_, rfl⟩
  · rw [monitorPassEnv, monitorPassFrom_processes_data]
    exact List.mem_filterMap.mpr ⟨Except.ok info, hmem, rfl⟩
  · intro hn
    rw [hn]
    rfl
  · intro hc
    rw [hc]
    rfl
  · intro hm
    rw [hm]
    rfl

/-- Closed instance of C10: the fixture with every optional metric
missing appears in the pass with name "N/A", cpu 0, ram 0, score 0. -/
theorem C10_missing_metrics_defaulted_witness :
    ∃ p ∈ (monitorPassEnv (fun _ => cfg50) (fun _ _ => true)
        [Except.ok infoMissing]).processes_data,
      sampleOf (Except.ok infoMissing) = some p ∧
      p.pid = infoMissing.pid ∧
      (infoMissing.name = none → p.name = "N/A") ∧
      (infoMissing.cpu_percent = none → p.cpu = 0) ∧
      (infoMissing.memory_percent = none → p.ram = 0) ∧
      p.score = calculate_score p.cpu p.ram :=
  C10_missing_metrics_defaulted infoMissing (fun _ => cfg50)
    (fun _ _ => true) [Except.ok infoMissing] (by simp)

end APB
